import Mathlib

/-!
Shallow embedding of the movie-search application (React/TypeScript, a
single `App` component) and verification of its specification.

The embedded operations are:
  * `getGenreForWeather` — the weather-code/temperature → genre mapper;
  * `fetchFrom` / `fetchAllMoviesByGenre` — the paginated OMDB fetch loop;
  * `fetchTrailerFromTMDB` — the two-step TMDB trailer resolver;
  * the trailer cache step triggered by hover events;
  * `handleSearch`, `handleGenreSelect`, `handleBack` — the search
    controller state transitions;
  * `computePreviewLeft` — the hover-preview horizontal clamping.

Network interaction is modelled by explicit oracles: a provider is a
function from a page number (or request) to an `Except Unit` response,
where `Except.error` models a rejected fetch / JSON parse failure and a
missing JSON field is an `Option` that is `none`.
-/

/-- Movie record as fetched from OMDB: `{imdbID, Title, Year, Poster}`. -/
structure Movie where
  imdbID : String
  title : String
  year : String
  poster : String
deriving DecidableEq, Repr

/-- List of the seven genre literals in the `GENRES` constant. -/
def GENRES : List String :=
  ["adventure", "mystery", "romance", "fantasy", "action", "family", "drama"]

/-- Weather-code/temperature → genre mapper `getGenreForWeather`:
an ordered cascade of `if` tests, first match wins. -/
def getGenreForWeather (code : Int) (temp : ℚ) : String :=
  if 0 ≤ code ∧ code ≤ 3 then "adventure"
  else if 45 ≤ code ∧ code ≤ 48 then "mystery"
  else if 51 ≤ code ∧ code ≤ 67 then "romance"
  else if 71 ≤ code ∧ code ≤ 77 then "fantasy"
  else if 30 ≤ temp then "action"
  else if temp ≤ 5 then "family"
  else "drama"

/-- A weather code lies outside all four special code ranges, so that the
temperature rules of `getGenreForWeather` decide the genre. -/
def outsideCodeRanges (code : Int) : Prop :=
  ¬(0 ≤ code ∧ code ≤ 3) ∧ ¬(45 ≤ code ∧ code ≤ 48) ∧
  ¬(51 ≤ code ∧ code ≤ 67) ∧ ¬(71 ≤ code ∧ code ≤ 77)

instance (code : Int) : Decidable (outsideCodeRanges code) := by
  unfold outsideCodeRanges; infer_instance

/-- C1: the genre mapper is total and decided by ordered first-match
rules: codes 0–3 ↦ adventure, 45–48 ↦ mystery, 51–67 ↦ romance,
71–77 ↦ fantasy; outside all ranges, temperature ≥ 30 ↦ action, else
temperature ≤ 5 ↦ family, else drama; the result is always one of the
seven genre literals. -/
theorem genreMapper_firstMatch_rules (code : Int) (temp : ℚ) :
    ((0 ≤ code ∧ code ≤ 3) → getGenreForWeather code temp = "adventure") ∧
    ((45 ≤ code ∧ code ≤ 48) → getGenreForWeather code temp = "mystery") ∧
    ((51 ≤ code ∧ code ≤ 67) → getGenreForWeather code temp = "romance") ∧
    ((71 ≤ code ∧ code ≤ 77) → getGenreForWeather code temp = "fantasy") ∧
    (outsideCodeRanges code → 30 ≤ temp →
      getGenreForWeather code temp = "action") ∧
    (outsideCodeRanges code → temp < 30 → temp ≤ 5 →
      getGenreForWeather code temp = "family") ∧
    (outsideCodeRanges code → temp < 30 → 5 < temp →
      getGenreForWeather code temp = "drama") ∧
    getGenreForWeather code temp ∈ GENRES := by
  unfold getGenreForWeather outsideCodeRanges GENRES
  split_ifs with h1 h2 h3 h4 h5 h6 <;>
    refine ⟨?_, ?_, ?_, ?_, ?_, ?_, ?_, ?_⟩ <;>
    simp_all <;> omega

/-- Witness for C1: code 20 at 35 °C falls outside all code ranges and
maps to "action". -/
theorem genreMapper_firstMatch_rules_witness :
    getGenreForWeather 20 35 = "action" :=
  (genreMapper_firstMatch_rules 20 35).2.2.2.2.1 (by decide) (by norm_num)

/-- Model of the JavaScript String.prototype.trim call used on the query:
strip leading and trailing whitespace. -/
def jsTrim (s : String) : String :=
  ⟨((s.data.dropWhile Char.isWhitespace).reverse.dropWhile Char.isWhitespace).reverse⟩

/-- Body of the while-true pagination loop shared by fetchAllMoviesByGenre
and handleSearch, starting at the given page with the given accumulator.
The provider oracle maps a page number to the parsed response:
Except.error models a rejected fetch or JSON failure, and the Option is
the Search field (none when the field is absent, i.e. falsy).  The second
component records the page numbers actually requested, in order. -/
def fetchFrom (provider : Nat → Except Unit (Option (List Movie)))
    (page : Nat) (acc : List Movie) : Except Unit (List Movie) × List Nat :=
  match provider page with
  | .error _ => (.error (), [page])
  | .ok none => (.ok acc, [page])
  | .ok (some results) =>
    if page + 1 > 10 then (.ok (acc ++ results), [page])
    else
      let rest := fetchFrom provider (page + 1) (acc ++ results)
      (rest.1, page :: rest.2)
termination_by 11 - page

/-- Paginated fetch loop of fetchAllMoviesByGenre (and the identical inline
loop in handleSearch): page starts at 1 with an empty accumulator. -/
def fetchAllMoviesByGenre (provider : Nat → Except Unit (Option (List Movie))) :
    Except Unit (List Movie) × List Nat :=
  fetchFrom provider 1 []

theorem fetchFrom_trace_le (provider : Nat → Except Unit (Option (List Movie))) :
    ∀ (n page : Nat) (acc : List Movie), page + n = 11 → 1 ≤ page → page ≤ 10 →
      (fetchFrom provider page acc).2.length ≤ n := by
  intro n
  induction n with
  | zero => intro page acc h h1 h10; omega
  | succ n ih =>
    intro page acc h h1 h10
    rw [fetchFrom]
    rcases hp : provider page with e | o
    · simp
    · rcases o with _ | results
      · simp
      · by_cases hcap : page + 1 > 10
        · simp [hcap]
        · have := ih (page + 1) (acc ++ results) (by omega) (by omega) (by omega)
          simp only [hcap, if_false]
          simpa using this

/-- C2: for every provider behaviour (hence for every query string and
every sequence of provider responses), the pagination loop requests at
most 10 pages; it terminates by construction, being a total function. -/
theorem paginatedFetcher_atMostTenRequests
    (provider : Nat → Except Unit (Option (List Movie))) :
    (fetchAllMoviesByGenre provider).2.length ≤ 10 :=
  fetchFrom_trace_le provider 10 1 [] (by omega) (by omega) (by omega)

theorem fetchFrom_ok_concat (pages : Nat → Option (List Movie)) (k : Nat)
    (hk : pages k = none) (hsome : ∀ p, 1 ≤ p → p < k → (pages p).isSome) :
    ∀ (n page : Nat) (acc : List Movie), page + n = 11 → 1 ≤ page → page ≤ 10 → page ≤ k →
      fetchFrom (fun p => .ok (pages p)) page acc =
        (.ok (acc ++ (List.range' page (min (k - 1) 10 + 1 - page)).flatMap
            fun p => (pages p).getD []),
         List.range' page (min k 10 + 1 - page)) := by
  intro n
  induction n with
  | zero => intro page acc h h1 h10 hpk; omega
  | succ n ih =>
    intro page acc h h1 h10 hpk
    rw [fetchFrom]
    rcases Nat.lt_or_ge page k with hlt | hge
    · obtain ⟨rs, hrs⟩ := Option.isSome_iff_exists.mp (hsome page h1 hlt)
      simp only [hrs]
      by_cases hcap : page + 1 > 10
      · have hp10 : page = 10 := by omega
        subst hp10
        have hmin1 : min (k - 1) 10 + 1 - 10 = 1 := by omega
        have hmin2 : min k 10 + 1 - 10 = 1 := by omega
        simp [hcap, hmin1, hmin2, List.range'_one, hrs]
      · rw [if_neg hcap]
        rw [ih (page + 1) (acc ++ rs) (by omega) (by omega) (by omega) (by omega)]
        have hsplit1 : min (k - 1) 10 + 1 - page = (min (k - 1) 10 + 1 - (page + 1)) + 1 := by
          omega
        have hsplit2 : min k 10 + 1 - page = (min k 10 + 1 - (page + 1)) + 1 := by
          omega
        rw [hsplit1, hsplit2, List.range'_succ, List.range'_succ]
        simp [hrs, List.flatMap_cons, List.append_assoc]
    · have hpk2 : page = k := by omega
      subst hpk2
      simp only [hk]
      have hmin1 : min (page - 1) 10 + 1 - page = 0 := by omega
      have hmin2 : min page 10 + 1 - page = 1 := by omega
      simp [hmin1, hmin2, List.range'_one]

theorem fetchFrom_error_propagates (provider : Nat → Except Unit (Option (List Movie)))
    (perr : Nat) (hperr : provider perr = .error ())
    (hsome : ∀ q, 1 ≤ q → q < perr → ∃ rs, provider q = .ok (some rs))
    (hle : perr ≤ 10) :
    ∀ (n page : Nat) (acc : List Movie), page + n = 11 → 1 ≤ page → page ≤ perr →
      (fetchFrom provider page acc).1 = .error () := by
  intro n
  induction n with
  | zero => intro page acc h h1 hpk; omega
  | succ n ih =>
    intro page acc h h1 hpk
    rw [fetchFrom]
    rcases Nat.lt_or_ge page perr with hlt | hge
    · obtain ⟨rs, hrs⟩ := hsome page h1 hlt
      simp only [hrs]
      have hcap : ¬ (page + 1 > 10) := by omega
      rw [if_neg hcap]
      exact ih (page + 1) (acc ++ rs) (by omega) (by omega) (by omega)
    · have hpk2 : page = perr := by omega
      subst hpk2
      simp [hperr]

/-- Page responses refuting C3 as stated: every page up to 11 has a
one-movie Search field and page 12 is the first without one. -/
def pagesCex : Nat → Option (List Movie) :=
  fun p => if p ≤ 11 then some [⟨"tt0000001", "M", "2000", "N/A"⟩] else none

/-- Counterexample to C3 as stated: with Search fields present on pages 1
through 11 and first absent on page 12, the fetcher does not return the
concatenation of the results of all pages before the first one lacking a
results field (pages 1–11); the hard 10-page cap truncates it. -/
theorem paginatedFetcher_concat_cex :
    (fetchAllMoviesByGenre fun p => .ok (pagesCex p)).1 ≠
      .ok ((List.range' 1 11).flatMap fun p => (pagesCex p).getD []) := by
  have h : (fetchAllMoviesByGenre fun p => .ok (pagesCex p)) =
      (.ok ((List.range' 1 (min (12 - 1) 10)).flatMap fun p => (pagesCex p).getD []),
       List.range' 1 (min 12 10)) :=
    fetchFrom_ok_concat pagesCex 12 (by decide)
      (by intro p h1 h2; interval_cases p <;> decide) 10 1 [] (by omega)
      (by omega) (by omega) (by omega)
  rw [h]
  simp only [ne_eq, Except.ok.injEq]
  decide

/-- C3 amended: the fetcher returns the in-order concatenation of the
Search fields of pages 1 through min(k−1, 10), where k is the first page
whose response lacks a results field, and requests exactly pages 1
through min(k, 10) — the 10-page cap truncates both; an empty
concatenation is an ordinary ok result; and a network failure on any
reached request propagates to the caller as an error. -/
theorem paginatedFetcher_concat_spec :
    (∀ (pages : Nat → Option (List Movie)) (k : Nat),
        pages k = none → (∀ p, 1 ≤ p → p < k → (pages p).isSome) → 1 ≤ k →
        fetchAllMoviesByGenre (fun p => .ok (pages p)) =
          (.ok ((List.range' 1 (min (k - 1) 10)).flatMap fun p => (pages p).getD []),
           List.range' 1 (min k 10))) ∧
    (∀ (provider : Nat → Except Unit (Option (List Movie))) (perr : Nat),
        provider perr = .error () →
        (∀ q, 1 ≤ q → q < perr → ∃ rs, provider q = .ok (some rs)) →
        1 ≤ perr → perr ≤ 10 →
        (fetchAllMoviesByGenre provider).1 = .error ()) := by
  constructor
  · intro pages k hk hsome h1
    have h := fetchFrom_ok_concat pages k hk hsome 10 1 [] (by omega) (by omega)
      (by omega) (by omega)
    simpa using h
  · intro provider perr hperr hsome h1 hle
    exact fetchFrom_error_propagates provider perr hperr hsome hle 10 1 [] (by omega)
      (by omega) (by omega)

/-- Page responses for the C3 witness: Search fields on pages 1 and 2,
first absent on page 3. -/
def pagesWitness : Nat → Option (List Movie) :=
  fun p => if 1 ≤ p ∧ p ≤ 2 then some [⟨"tt0000002", "W", "2001", "N/A"⟩] else none

/-- Witness for C3 amended: a provider ending at page 3 yields the two
accumulated movies with requests 1, 2, 3, and an all-failing provider
propagates the error. -/
theorem paginatedFetcher_concat_spec_witness :
    (fetchAllMoviesByGenre (fun p => .ok (pagesWitness p)) =
      (.ok [⟨"tt0000002", "W", "2001", "N/A"⟩, ⟨"tt0000002", "W", "2001", "N/A"⟩],
       [1, 2, 3])) ∧
    (fetchAllMoviesByGenre fun _ => .error ()).1 = .error () := by
  constructor
  · have h := paginatedFetcher_concat_spec.1 pagesWitness 3 (by decide)
      (by intro p h1 h2; interval_cases p <;> decide) (by omega)
    rw [h]
    refine Prod.ext ?_ (by decide)
    simp only [Except.ok.injEq]
    decide
  · exact paginatedFetcher_concat_spec.2 (fun _ => .error ()) 1 rfl
      (by intro q h1 h2; omega) (by omega) (by omega)

/-- Trailer UI state: the optional YouTube key, the loading flag and the
error flag set from the outcome of a lookup. -/
structure TrailerState where
  youtubeKey : Option String
  loading : Bool
  error : Bool
deriving DecidableEq, Repr

/-- Lookup in the trailerCache map, keyed by imdbID; some v means an
entry is present (v itself is the cached key, none meaning the cached
negative outcome), none means no entry (undefined). -/
def cacheGet : List (String × Option String) → String → Option (Option String)
  | [], _ => none
  | e :: rest, id => if e.1 = id then some e.2 else cacheGet rest id

/-- Body of the trailer-fetch effect for a hovered movie, with the remote
lookup resolved atomically: on a cache hit the cached outcome is replayed
with no request; on a miss the lookup oracle is consulted, its outcome is
written to the cache and the trailer state is set from it.  The middle
component lists the ids for which a remote lookup request was issued. -/
def hoverStep (lookup : Movie → Option String)
    (cache : List (String × Option String)) (m : Movie) :
    List (String × Option String) × List String × TrailerState :=
  match cacheGet cache m.imdbID with
  | some cachedKey => (cache, [], ⟨cachedKey, false, cachedKey.isNone⟩)
  | none =>
    let key := lookup m
    ((m.imdbID, key) :: cache, [m.imdbID], ⟨key, false, key.isNone⟩)

/-- One firing of the hoveredMovie effect: none is the unhover branch
that resets the trailer state and touches nothing else. -/
def hoverEvent (lookup : Movie → Option String)
    (cache : List (String × Option String)) :
    Option Movie → List (String × Option String) × List String × TrailerState
  | none => (cache, [], ⟨none, false, false⟩)
  | some m => hoverStep lookup cache m

/-- Run a session of hover events against the trailer cache, collecting
the ids of all remote lookup requests issued along the way. -/
def runHovers (lookup : Movie → Option String) :
    List (Option Movie) → List (String × Option String) →
    List (String × Option String) × List String
  | [], cache => (cache, [])
  | ev :: evs, cache =>
    let r := hoverEvent lookup cache ev
    let rest := runHovers lookup evs r.1
    (rest.1, r.2.1 ++ rest.2)

theorem runHovers_count_aux (lookup : Movie → Option String) :
    ∀ (evs : List (Option Movie)) (cache : List (String × Option String)) (id : String),
      ((cacheGet cache id).isSome → (runHovers lookup evs cache).2.count id = 0) ∧
      (runHovers lookup evs cache).2.count id ≤ 1 := by
  intro evs
  induction evs with
  | nil => intro cache id; simp [runHovers]
  | cons ev evs ih =>
    intro cache id
    cases ev with
    | none =>
      simpa [runHovers, hoverEvent] using ih cache id
    | some m =>
      rcases hc : cacheGet cache m.imdbID with _ | v
      · by_cases hid : m.imdbID = id
        · subst hid
          have hnew : cacheGet ((m.imdbID, lookup m) :: cache) m.imdbID = some (lookup m) := by
            simp [cacheGet]
          have hrest := (ih ((m.imdbID, lookup m) :: cache) m.imdbID).1 (by rw [hnew]; rfl)
          constructor
          · intro hsome
            rw [hc] at hsome
            simp at hsome
          · simp [runHovers, hoverEvent, hoverStep, hc, List.count_cons, hrest]
        · have hpres : cacheGet ((m.imdbID, lookup m) :: cache) id = cacheGet cache id := by
            simp [cacheGet, hid]
          have hih := ih ((m.imdbID, lookup m) :: cache) id
          rw [hpres] at hih
          constructor
          · intro hsome
            simp [runHovers, hoverEvent, hoverStep, hc, List.count_cons, hid,
              hih.1 hsome]
          · simpa [runHovers, hoverEvent, hoverStep, hc, List.count_cons, hid]
              using hih.2
      · constructor
        · intro hsome
          simpa [runHovers, hoverEvent, hoverStep, hc] using (ih cache id).1 hsome
        · simpa [runHovers, hoverEvent, hoverStep, hc] using (ih cache id).2

/-- C4: over any session of hover events the remote trailer lookup for a
given movie id is issued at most once; cached entries (including the
negative outcome) are never overwritten and a hover step never fetches an
id with an entry present; a hover over a cached movie replays the cached
outcome with no request and no cache change. -/
theorem trailerLookup_atMostOnce :
    (∀ (lookup : Movie → Option String) (evs : List (Option Movie))
        (cache : List (String × Option String)) (id : String),
        (runHovers lookup evs cache).2.count id ≤ 1) ∧
    (∀ (lookup : Movie → Option String) (cache : List (String × Option String))
        (ev : Option Movie) (id : String) (v : Option String),
        cacheGet cache id = some v →
        cacheGet (hoverEvent lookup cache ev).1 id = some v ∧
        id ∉ (hoverEvent lookup cache ev).2.1) ∧
    (∀ (lookup : Movie → Option String) (cache : List (String × Option String))
        (m : Movie) (v : Option String),
        cacheGet cache m.imdbID = some v →
        hoverStep lookup cache m = (cache, [], ⟨v, false, v.isNone⟩)) := by
  refine ⟨fun lookup evs cache id => (runHovers_count_aux lookup evs cache id).2, ?_, ?_⟩
  · intro lookup cache ev id v hv
    cases ev with
    | none => simp [hoverEvent, hv]
    | some m =>
      rcases hc : cacheGet cache m.imdbID with _ | w
      · have hid : m.imdbID ≠ id := fun h => by rw [h, hv] at hc; cases hc
        refine ⟨?_, ?_⟩
        · simp [hoverEvent, hoverStep, hc, cacheGet, hid, hv]
        · simp [hoverEvent, hoverStep, hc]
          exact fun h => hid h.symm
      · simp [hoverEvent, hoverStep, hc, hv]
  · intro lookup cache m v hv
    simp [hoverStep, hv]

/-- Sample movie used by concrete witnesses for the hover session. -/
def movieA : Movie := ⟨"tt0000003", "A", "2002", "N/A"⟩

/-- Witness for C4: a hover, unhover, repeat-hover session fetches the
movie once; with a cached negative entry, the entry survives a hover and
the step replays the no-trailer outcome without a request. -/
theorem trailerLookup_atMostOnce_witness :
    (runHovers (fun _ => some "k7") [some movieA, none, some movieA] []).2.count
      "tt0000003" ≤ 1 ∧
    cacheGet (hoverEvent (fun _ => some "k7") [("tt0000003", none)] (some movieA)).1
      "tt0000003" = some none ∧
    hoverStep (fun _ => some "k7") [("tt0000003", none)] movieA =
      ([("tt0000003", none)], [], ⟨none, false, true⟩) := by
  refine ⟨trailerLookup_atMostOnce.1 _ _ _ _,
    (trailerLookup_atMostOnce.2.1 (fun _ => some "k7") [("tt0000003", none)]
      (some movieA) "tt0000003" none (by decide)).1, ?_⟩
  have h := trailerLookup_atMostOnce.2.2 (fun _ => some "k7") [("tt0000003", none)]
    movieA none (by decide)
  rw [h]
  rfl

/-- One entry of the search history stack: the query that was searched
and the result movies displayed for it. -/
structure SearchHistoryEntry where
  query : String
  movies : List Movie
deriving DecidableEq, Repr

/-- State owned by the search controller of the App component: the
free-text query, the query actually searched, current results, the
mount-time suggestions, the hasSearched / isSearching flags, the history
stack and the genre dropdown value (empty string for All Genres). -/
structure AppState where
  query : String
  searchedQuery : String
  movies : List Movie
  suggested : List Movie
  hasSearched : Bool
  isSearching : Bool
  searchHistory : List SearchHistoryEntry
  selectedGenre : String
deriving DecidableEq, Repr

/-- The handleSearch transition.  The outcome argument is the result of
the inline pagination loop: ok with the accumulated movies, or error when
a page fetch rejected.  An empty trimmed query returns unchanged.
Otherwise the current search is pushed when hasSearched is set and
searchedQuery is non-empty (truthy), results are cleared and the flags
set before the loop; on error the function stops there and the Boolean
records that the exception escaped the handler, while on ok the results
are stored and isSearching is cleared. -/
def handleSearch (s : AppState) (outcome : Except Unit (List Movie)) : AppState × Bool :=
  let trimmedQuery := jsTrim s.query
  if trimmedQuery = "" then (s, false)
  else
    let hist := if s.hasSearched ∧ s.searchedQuery ≠ "" then
        s.searchHistory ++ [⟨s.searchedQuery, s.movies⟩]
      else s.searchHistory
    let s1 : AppState :=
      { s with searchHistory := hist, movies := [], searchedQuery := trimmedQuery,
               hasSearched := true, isSearching := true, selectedGenre := "" }
    match outcome with
    | .error _ => (s1, true)
    | .ok allMovies => ({ s1 with movies := allMovies, isSearching := false }, false)

/-- The handleGenreSelect transition: the All Genres branch (empty
string) resets to the suggestions view; otherwise the genre becomes the
searched query, flags are set, and the fetched genre movies are stored
(or the error escapes, mirroring handleSearch).  No history push and no
reset of the free-text query occur in this handler. -/
def handleGenreSelect (s : AppState) (genre : String)
    (outcome : Except Unit (List Movie)) : AppState × Bool :=
  if genre = "" then
    ({ s with selectedGenre := "", movies := [], hasSearched := false,
              query := "", searchedQuery := "" }, false)
  else
    let s1 : AppState :=
      { s with selectedGenre := genre, isSearching := true, hasSearched := true,
               searchedQuery := genre, movies := [] }
    match outcome with
    | .error _ => (s1, true)
    | .ok genreMovies => ({ s1 with movies := genreMovies, isSearching := false }, false)

/-- The handleBack transition: with a non-empty history stack the last
entry is popped and its query and movies restored; with an empty stack
the state returns to the initial suggestions view with the search field
cleared. -/
def handleBack (s : AppState) : AppState :=
  match s.searchHistory.getLast? with
  | some previousSearch =>
    { s with searchHistory := s.searchHistory.dropLast,
             movies := previousSearch.movies,
             searchedQuery := previousSearch.query,
             query := previousSearch.query }
  | none =>
    { s with movies := [], query := "", searchedQuery := "",
             hasSearched := false, selectedGenre := "" }

/-- C5: a submitted search pushes the pair of previous query and previous
results when a previous search was displayed; back with a non-empty
stack pops the most recent entry and restores its query and results
verbatim — in particular search A, then search B, then back yields the
state of search A with its query and results; and back with an empty
stack restores the initial suggestions view with the search field
cleared. -/
theorem searchHistory_push_pop :
    (∀ (s : AppState) (outcome : Except Unit (List Movie)),
        jsTrim s.query ≠ "" → s.hasSearched = true → s.searchedQuery ≠ "" →
        (handleSearch s outcome).1.searchHistory =
          s.searchHistory ++ [⟨s.searchedQuery, s.movies⟩]) ∧
    (∀ (s : AppState) (e : SearchHistoryEntry),
        s.searchHistory.getLast? = some e →
        handleBack s = { s with searchHistory := s.searchHistory.dropLast,
                                movies := e.movies, searchedQuery := e.query,
                                query := e.query }) ∧
    (∀ (s : AppState) (qA qB : String) (rA rB : List Movie),
        s.hasSearched = false → s.searchHistory = [] →
        jsTrim qA ≠ "" → jsTrim qB ≠ "" →
        handleBack (handleSearch
            { (handleSearch { s with query := qA } (.ok rA)).1 with query := qB }
            (.ok rB)).1 =
          { s with query := jsTrim qA, searchedQuery := jsTrim qA, movies := rA,
                   hasSearched := true, isSearching := false, selectedGenre := "",
                   searchHistory := [] }) ∧
    (∀ s : AppState, s.searchHistory = [] →
        handleBack s = { s with movies := [], query := "", searchedQuery := "",
                                hasSearched := false, selectedGenre := "" }) := by
  refine ⟨?_, ?_, ?_, ?_⟩
  · intro s outcome hq hhs hsq
    cases outcome <;> simp [handleSearch, hq, hhs, hsq]
  · intro s e he
    simp [handleBack, he]
  · intro s qA qB rA rB hhs hhist hqA hqB
    simp [handleSearch, hqA, hqB, hhs, hhist, handleBack]
  · intro s hhist
    simp [handleBack, hhist]

/-- Initial state of the App component before any interaction. -/
def stateZero : AppState := ⟨"", "", [], [], false, false, [], ""⟩

/-- Witness for C5: from the initial state, searching alpha, then beta,
then back restores the alpha query and its one-movie results with an
empty stack. -/
theorem searchHistory_push_pop_witness :
    handleBack (handleSearch
        { (handleSearch { stateZero with query := "alpha" } (.ok [movieA])).1
          with query := "beta" } (.ok [])).1 =
      { stateZero with query := "alpha", searchedQuery := "alpha", movies := [movieA],
                       hasSearched := true, isSearching := false, selectedGenre := "",
                       searchHistory := [] } := by
  have h := searchHistory_push_pop.2.2.1 stateZero "alpha" "beta" [movieA] []
    rfl rfl (by decide) (by decide)
  have e : jsTrim "alpha" = "alpha" := by decide
  rw [e] at h
  exact h

theorem GENRES_facts : ∀ g ∈ GENRES, jsTrim g = g ∧ g ≠ "" := by decide

/-- State with a displayed previous search, used to refute C6 and C9. -/
def stateC6 : AppState := ⟨"batman", "batman", [movieA], [], true, false, [], ""⟩

/-- Counterexample to C6 as stated: with the batman search displayed,
selecting the action genre neither pushes the previous search onto the
history stack nor resets the free-text query to empty. -/
theorem genreSelect_cex :
    ¬ ((handleGenreSelect stateC6 "action" (.ok [])).1.searchHistory =
         stateC6.searchHistory ++ [⟨stateC6.searchedQuery, stateC6.movies⟩] ∧
       (handleGenreSelect stateC6 "action" (.ok [])).1.query = "") := by
  decide

/-- C6 amended: selecting a genre behaves like a submitted search whose
query is the genre keyword except that nothing is pushed onto the history
stack, the free-text query is left unchanged rather than reset, and the
genre stays selected in the dropdown instead of being cleared. -/
theorem genreSelect_spec (s : AppState) (genre : String)
    (outcome : Except Unit (List Movie)) (hg : genre ∈ GENRES) :
    handleGenreSelect s genre outcome =
      ({ (handleSearch { s with query := genre } outcome).1 with
           searchHistory := s.searchHistory, query := s.query, selectedGenre := genre },
       (handleSearch { s with query := genre } outcome).2) := by
  obtain ⟨hg1, hg2⟩ := GENRES_facts genre hg
  cases outcome <;> simp [handleGenreSelect, handleSearch, hg1, hg2]

/-- Witness for C6 amended: the equation instantiated at the batman
state with the action genre and an empty fetch result. -/
theorem genreSelect_spec_witness :
    handleGenreSelect stateC6 "action" (.ok []) =
      ({ (handleSearch { stateC6 with query := "action" } (.ok [])).1 with
           searchHistory := stateC6.searchHistory, query := stateC6.query,
           selectedGenre := "action" },
       (handleSearch { stateC6 with query := "action" } (.ok [])).2) :=
  genreSelect_spec stateC6 "action" (.ok []) (by decide)

/-- Render condition of the no-results block: search performed, not
searching, and no movies. -/
def showsNoResults (s : AppState) : Bool :=
  s.hasSearched && !s.isSearching && s.movies.isEmpty

/-- Render condition of the suggested block: no search performed, no
result movies, and suggestions present. -/
def showsSuggestions (s : AppState) : Bool :=
  !s.hasSearched && s.movies.isEmpty && !s.suggested.isEmpty

/-- Render condition of the results grid: some movies present. -/
def showsResultsGrid (s : AppState) : Bool :=
  !s.movies.isEmpty

/-- Initial-like state with suggestions loaded and a typed query, used
for the C9 counterexample. -/
def stateC9 : AppState := ⟨"batman", "", [], [movieA], false, false, [], ""⟩

/-- Counterexample to C9 as stated: when every page request of a
submitted batman search fails, the rejection escapes the handler, the
no-results view is not presented, and the searching flag stays set. -/
theorem searchFailure_cex :
    ¬ ((handleSearch stateC9 (.error ())).2 = false ∧
       showsNoResults (handleSearch stateC9 (.error ())).1 = true ∧
       (handleSearch stateC9 (.error ())).1.isSearching = false) := by
  decide

/-- C9 amended: a network failure during a submitted non-empty search
escapes the handler as an unhandled rejection; the previous results were
already cleared, so no stale results are shown, but the searching flag
remains set and the no-results view is not presented. -/
theorem searchFailure_spec (s : AppState) (h : jsTrim s.query ≠ "") :
    (handleSearch s (.error ())).2 = true ∧
    (handleSearch s (.error ())).1.movies = [] ∧
    showsResultsGrid (handleSearch s (.error ())).1 = false ∧
    (handleSearch s (.error ())).1.isSearching = true ∧
    showsNoResults (handleSearch s (.error ())).1 = false := by
  simp [handleSearch, h, showsResultsGrid, showsNoResults]

/-- Witness for C9 amended: the failing batman search from the
suggestions state. -/
theorem searchFailure_spec_witness :
    (handleSearch stateC9 (.error ())).2 = true ∧
    (handleSearch stateC9 (.error ())).1.movies = [] ∧
    showsResultsGrid (handleSearch stateC9 (.error ())).1 = false ∧
    (handleSearch stateC9 (.error ())).1.isSearching = true ∧
    showsNoResults (handleSearch stateC9 (.error ())).1 = false :=
  searchFailure_spec stateC9 (by decide)

/-- C10: none of search submission, genre selection or back writes the
suggested list — only the mount-time loader does — and back with an
empty history returns to the no-active-search state in which the
untouched suggestions are displayed again. -/
theorem suggestions_frame (s : AppState) (outcome : Except Unit (List Movie))
    (genre : String) :
    ((handleSearch s outcome).1.suggested = s.suggested) ∧
    ((handleGenreSelect s genre outcome).1.suggested = s.suggested) ∧
    ((handleBack s).suggested = s.suggested) ∧
    (s.searchHistory = [] →
      (handleBack s).hasSearched = false ∧ (handleBack s).movies = [] ∧
      (s.suggested ≠ [] → showsSuggestions (handleBack s) = true)) := by
  refine ⟨?_, ?_, ?_, ?_⟩
  · cases outcome <;> by_cases hq : jsTrim s.query = "" <;> simp [handleSearch, hq]
  · cases outcome <;> by_cases hgenre : genre = "" <;> simp [handleGenreSelect, hgenre]
  · rcases hl : s.searchHistory.getLast? with _ | e <;> simp [handleBack, hl]
  · intro hhist
    simp [handleBack, hhist, showsSuggestions]

/-- Witness for C10: from the suggestions state a search preserves the
suggested list and back restores the suggestions view. -/
theorem suggestions_frame_witness :
    (handleSearch stateC9 (.ok [])).1.suggested = stateC9.suggested ∧
    (handleBack stateC9).hasSearched = false ∧ (handleBack stateC9).movies = [] ∧
    showsSuggestions (handleBack stateC9) = true := by
  have h := suggestions_frame stateC9 (.ok []) "action"
  have h4 := h.2.2.2 rfl
  exact ⟨h.1, h4.1, h4.2.1, h4.2.2 (by decide)⟩

/-- One entry of a TMDB videos response: its type, site and key. -/
structure Video where
  type : String
  site : String
  key : String
deriving DecidableEq, Repr

/-- The fetchTrailerFromTMDB resolver.  The missing-key early return is
the first Boolean; the title/year search request is abstracted by its
parsed response (a list of TMDB ids, the results field being an Option),
and the videos request by an oracle from the chosen id to its parsed
response.  A thrown or rejected step lands in the catch block, which
returns none, as do an absent or empty results field at either step; the
found video is selected Trailer-on-YouTube first, then Teaser, then any
YouTube entry, and its key is returned unless falsy (empty), in which
case none is returned. -/
def fetchTrailerFromTMDB (apiKeyConfigured : Bool)
    (searchResp : Except Unit (Option (List Nat)))
    (videosOf : Nat → Except Unit (Option (List Video))) : Option String :=
  if !apiKeyConfigured then none
  else
    match searchResp with
    | .error _ => none
    | .ok none => none
    | .ok (some []) => none
    | .ok (some (tmdbId :: _)) =>
      match videosOf tmdbId with
      | .error _ => none
      | .ok none => none
      | .ok (some []) => none
      | .ok (some videos) =>
        let found :=
          ((videos.find? fun v => v.type == "Trailer" && v.site == "YouTube").orElse
            fun _ => videos.find? fun v => v.type == "Teaser" && v.site == "YouTube").orElse
            fun _ => videos.find? fun v => v.site == "YouTube"
        match found with
        | some v => if v.key = "" then none else some v.key
        | none => none

/-- Video entry whose key is the empty string, refuting C7 as stated. -/
def vidEmptyKey : Video := ⟨"Trailer", "YouTube", ""⟩

/-- Counterexample to C7 as stated: for a response whose first (and only)
Trailer-on-YouTube entry carries an empty key, the resolver does not
return that entry's key — the falsy key is coerced to the no-trailer
outcome. -/
theorem trailerResolver_cex :
    fetchTrailerFromTMDB true (.ok (some [7]))
        (fun _ => .ok (some [vidEmptyKey])) ≠ some vidEmptyKey.key := by
  decide

/-- C7 amended: with no API key configured, on any failed or empty
search step, and on any failed or empty videos step, the resolver
returns none; given a videos list it returns the key of the first
Trailer-on-YouTube entry, else of the first Teaser-on-YouTube entry,
else of the first YouTube entry, else none — except that a selected
entry with an empty (falsy) key is also returned as none. -/
theorem trailerResolver_priority :
    (∀ (searchResp : Except Unit (Option (List Nat)))
        (videosOf : Nat → Except Unit (Option (List Video))),
        fetchTrailerFromTMDB false searchResp videosOf = none) ∧
    (∀ videosOf, fetchTrailerFromTMDB true (.error ()) videosOf = none) ∧
    (∀ videosOf, fetchTrailerFromTMDB true (.ok none) videosOf = none) ∧
    (∀ videosOf, fetchTrailerFromTMDB true (.ok (some [])) videosOf = none) ∧
    (∀ (videosOf : Nat → Except Unit (Option (List Video))) (tmdbId : Nat)
        (rest : List Nat), videosOf tmdbId = .error () →
        fetchTrailerFromTMDB true (.ok (some (tmdbId :: rest))) videosOf = none) ∧
    (∀ (videosOf : Nat → Except Unit (Option (List Video))) (tmdbId : Nat)
        (rest : List Nat), videosOf tmdbId = .ok none →
        fetchTrailerFromTMDB true (.ok (some (tmdbId :: rest))) videosOf = none) ∧
    (∀ (videosOf : Nat → Except Unit (Option (List Video))) (tmdbId : Nat)
        (rest : List Nat) (videos : List Video) (v : Video),
        videosOf tmdbId = .ok (some videos) →
        videos.find? (fun w => w.type == "Trailer" && w.site == "YouTube") = some v →
        v.key ≠ "" →
        fetchTrailerFromTMDB true (.ok (some (tmdbId :: rest))) videosOf = some v.key) ∧
    (∀ (videosOf : Nat → Except Unit (Option (List Video))) (tmdbId : Nat)
        (rest : List Nat) (videos : List Video) (v : Video),
        videosOf tmdbId = .ok (some videos) →
        videos.find? (fun w => w.type == "Trailer" && w.site == "YouTube") = none →
        videos.find? (fun w => w.type == "Teaser" && w.site == "YouTube") = some v →
        v.key ≠ "" →
        fetchTrailerFromTMDB true (.ok (some (tmdbId :: rest))) videosOf = some v.key) ∧
    (∀ (videosOf : Nat → Except Unit (Option (List Video))) (tmdbId : Nat)
        (rest : List Nat) (videos : List Video) (v : Video),
        videosOf tmdbId = .ok (some videos) →
        videos.find? (fun w => w.type == "Trailer" && w.site == "YouTube") = none →
        videos.find? (fun w => w.type == "Teaser" && w.site == "YouTube") = none →
        videos.find? (fun w => w.site == "YouTube") = some v →
        v.key ≠ "" →
        fetchTrailerFromTMDB true (.ok (some (tmdbId :: rest))) videosOf = some v.key) ∧
    (∀ (videosOf : Nat → Except Unit (Option (List Video))) (tmdbId : Nat)
        (rest : List Nat) (videos : List Video),
        videosOf tmdbId = .ok (some videos) →
        videos.find? (fun w => w.site == "YouTube") = none →
        fetchTrailerFromTMDB true (.ok (some (tmdbId :: rest))) videosOf = none) ∧
    (∀ (videosOf : Nat → Except Unit (Option (List Video))) (tmdbId : Nat)
        (rest : List Nat) (videos : List Video) (v : Video),
        videosOf tmdbId = .ok (some videos) →
        (((videos.find? fun w => w.type == "Trailer" && w.site == "YouTube").orElse
            fun _ => videos.find? fun w => w.type == "Teaser" && w.site == "YouTube").orElse
            fun _ => videos.find? fun w => w.site == "YouTube") = some v →
        v.key = "" →
        fetchTrailerFromTMDB true (.ok (some (tmdbId :: rest))) videosOf = none) := by
  refine ⟨?_, ?_, ?_, ?_, ?_, ?_, ?_, ?_, ?_, ?_, ?_⟩
  · intro sr vo; simp [fetchTrailerFromTMDB]
  · intro vo; simp [fetchTrailerFromTMDB]
  · intro vo; simp [fetchTrailerFromTMDB]
  · intro vo; simp [fetchTrailerFromTMDB]
  · intro vo tid rest h; simp [fetchTrailerFromTMDB, h]
  · intro vo tid rest h; simp [fetchTrailerFromTMDB, h]
  · intro vo tid rest vids v h hf hk
    rcases vids with _ | ⟨w, ws⟩
    · simp at hf
    · simp [fetchTrailerFromTMDB, h, hf, Option.orElse, hk]
  · intro vo tid rest vids v h hf1 hf2 hk
    rcases vids with _ | ⟨w, ws⟩
    · simp at hf2
    · simp [fetchTrailerFromTMDB, h, hf1, hf2, Option.orElse, hk]
  · intro vo tid rest vids v h hf1 hf2 hf3 hk
    rcases vids with _ | ⟨w, ws⟩
    · simp at hf3
    · simp [fetchTrailerFromTMDB, h, hf1, hf2, hf3, Option.orElse, hk]
  · intro vo tid rest vids h hf
    have hall := List.find?_eq_none.mp hf
    have hf1 : vids.find? (fun w => w.type == "Trailer" && w.site == "YouTube") = none := by
      apply List.find?_eq_none.mpr
      intro w hw
      have := hall w hw
      simp_all
    have hf2 : vids.find? (fun w => w.type == "Teaser" && w.site == "YouTube") = none := by
      apply List.find?_eq_none.mpr
      intro w hw
      have := hall w hw
      simp_all
    rcases vids with _ | ⟨w, ws⟩
    · simp [fetchTrailerFromTMDB, h]
    · simp [fetchTrailerFromTMDB, h, hf1, hf2, hf, Option.orElse]
  · intro vo tid rest vids v h hsel hk
    rcases vids with _ | ⟨w, ws⟩
    · simp [Option.orElse] at hsel
    · simp only [fetchTrailerFromTMDB, h, Bool.not_true, Bool.false_eq_true,
        if_false]
      rw [hsel]
      simp [hk]

/-- Witness for C7 amended: a Trailer entry wins over an earlier Teaser
entry and its key is returned; a failed search step resolves to none. -/
theorem trailerResolver_priority_witness :
    fetchTrailerFromTMDB true (.ok (some [7]))
        (fun _ => .ok (some [⟨"Teaser", "YouTube", "tk"⟩, ⟨"Trailer", "YouTube", "abc"⟩])) =
      some "abc" ∧
    fetchTrailerFromTMDB true (.error ())
        (fun _ => .ok (some [⟨"Teaser", "YouTube", "tk"⟩])) = none := by
  constructor
  · exact trailerResolver_priority.2.2.2.2.2.2.1
      (fun _ => .ok (some [⟨"Teaser", "YouTube", "tk"⟩, ⟨"Trailer", "YouTube", "abc"⟩]))
      7 [] [⟨"Teaser", "YouTube", "tk"⟩, ⟨"Trailer", "YouTube", "abc"⟩]
      ⟨"Trailer", "YouTube", "abc"⟩ rfl (by decide) (by decide)
  · exact trailerResolver_priority.2.1 _

/-- Horizontal position computed when the hover show timer elapses: the
preview is centred on the card, then pushed right of the 10-pixel left
margin, then pulled back when its 350-pixel width would cross the right
margin. -/
def computePreviewLeft (rectLeft rectWidth scrollLeft innerWidth : ℚ) : ℚ :=
  let left := rectLeft + scrollLeft + rectWidth / 2 - 175
  let left2 := if left < 10 then 10 else left
  if left2 + 350 > innerWidth - 10 then innerWidth - 360 else left2

/-- Counterexample to C8 as stated: on a 300-pixel-wide viewport the
computed position violates the 10-pixel margins — the second clamp can
undo the first when the viewport is narrower than 370 pixels. -/
theorem previewClamp_cex :
    ¬ (10 ≤ computePreviewLeft 0 0 0 300 ∧
       computePreviewLeft 0 0 0 300 + 350 ≤ 300 - 10) := by
  norm_num [computePreviewLeft]

/-- C8 amended: whenever the viewport is at least 370 pixels wide, the
computed position keeps the 350-pixel preview at least 10 pixels off
either horizontal viewport edge, for every card rectangle and scroll
offset. -/
theorem previewClamp_margins (rectLeft rectWidth scrollLeft innerWidth : ℚ)
    (h : 370 ≤ innerWidth) :
    10 ≤ computePreviewLeft rectLeft rectWidth scrollLeft innerWidth ∧
    computePreviewLeft rectLeft rectWidth scrollLeft innerWidth + 350 ≤
      innerWidth - 10 := by
  unfold computePreviewLeft
  dsimp only
  split_ifs <;> constructor <;> linarith

/-- Witness for C8 amended: a card at 500 pixels of width 100 on a
1000-pixel viewport. -/
theorem previewClamp_margins_witness :
    10 ≤ computePreviewLeft 500 100 0 1000 ∧
    computePreviewLeft 500 100 0 1000 + 350 ≤ 1000 - 10 :=
  previewClamp_margins 500 100 0 1000 (by norm_num)
